import Mathlib

/-!
Shallow embedding of `src/xkbcommon/xkb.py` from python-xkbcommon.

The module is a cffi wrapper around the external libxkbcommon C library.
Each wrapper function is embedded as a Lean function over the values the
Python code actually receives from the C call (return code, pointer,
buffer contents); where a scenario needs the C side's documented
behaviour, that side is modelled separately in a clearly marked `_c`
definition.  A raised Python exception is `Except.error`, a normal
return is `Except.ok`, and a Python `None` result is `Option.none`.
Byte strings crossing the FFI boundary are byte lists (`List Nat`).
-/

/-- The exception classes defined by `xkbcommon.xkb` (xkb.py lines 16-71),
plus the Python built-ins `Exception` (the root) and `UnicodeEncodeError`
(raised by `str.encode`; its intermediate built-in superclasses are elided
since no question here involves them).  Each constructor is one `class`
statement of the module, except `exc` and `unicodeEncodeError`. -/
inductive ExcClass where
  | exc
  | unicodeEncodeError
  | xkbError
  | xkbPathError
  | xkbBufferTooSmall
  | xkbInvalidKeysym
  | xkbKeymapCreationFailure
  | xkbKeymapReadError
  | xkbInvalidModifierIndex
  | xkbModifierDoesNotExist
  | xkbInvalidLayoutIndex
  | xkbLayoutDoesNotExist
  | xkbInvalidLEDIndex
  | xkbLEDDoesNotExist
  deriving DecidableEq, Repr

/-- Direct superclass of each exception class, following the `class X(Y)`
headers of xkb.py: `XKBError(Exception)`, `XKBPathError(Exception)`, and
every other module class derives from `XKBError`. -/
def parentClass : ExcClass → Option ExcClass
  | .exc => none
  | .unicodeEncodeError => some .exc
  | .xkbError => some .exc
  | .xkbPathError => some .exc
  | .xkbBufferTooSmall => some .xkbError
  | .xkbInvalidKeysym => some .xkbError
  | .xkbKeymapCreationFailure => some .xkbError
  | .xkbKeymapReadError => some .xkbError
  | .xkbInvalidModifierIndex => some .xkbError
  | .xkbModifierDoesNotExist => some .xkbError
  | .xkbInvalidLayoutIndex => some .xkbError
  | .xkbLayoutDoesNotExist => some .xkbError
  | .xkbInvalidLEDIndex => some .xkbError
  | .xkbLEDDoesNotExist => some .xkbError

/-- `c` is `d` or inherits from it.  The hierarchy above has depth at most
two (`leaf → XKBError → Exception`), so two parent steps suffice. -/
def isSubclassOf (c d : ExcClass) : Bool :=
  c == d || parentClass c == some d || (parentClass c).bind parentClass == some d

/-- A Python `except D:` clause catches a raised instance of class `c`
iff `c` is a subclass of `D`. -/
def catches (clause raised : ExcClass) : Bool :=
  isSubclassOf raised clause

/-- The exception values raised by the code paths embedded below, with the
payloads the Python code attaches (`XKBPathError` carries its message
string, `XKBModifierDoesNotExist` carries its `modifier_name` attribute,
which the module documents may be `None`). -/
inductive XKBExc where
  | pathError (msg : String)
  | bufferTooSmall
  | invalidKeysym
  | invalidModifierIndex
  | modifierDoesNotExist (modifier_name : Option String)
  | invalidLEDIndex
  | unicodeEncodeError
  deriving DecidableEq, Repr

/-- The class of a raised exception value. -/
def XKBExc.cls : XKBExc → ExcClass
  | .pathError _ => .xkbPathError
  | .bufferTooSmall => .xkbBufferTooSmall
  | .invalidKeysym => .xkbInvalidKeysym
  | .invalidModifierIndex => .xkbInvalidModifierIndex
  | .modifierDoesNotExist _ => .xkbModifierDoesNotExist
  | .invalidLEDIndex => .xkbInvalidLEDIndex
  | .unicodeEncodeError => .unicodeEncodeError

/-! ### Context include paths (xkb.py lines 164-185) -/

/-- `Context.include_path_append` (xkb.py lines 164-169), embedded over the
return value `r` of the C call `xkb_context_include_path_append` — the only
information the wrapper receives about the path: it raises
`XKBPathError("Failed to append to include path")` whenever `r ≠ 1`. -/
def include_path_append (r : Int) : Except XKBExc Unit :=
  if r ≠ 1 then .error (.pathError "Failed to append to include path")
  else .ok ()

/-- `Context.include_path_append_default` (xkb.py lines 171-175). -/
def include_path_append_default (r : Int) : Except XKBExc Unit :=
  if r ≠ 1 then .error (.pathError "Failed to append default include paths")
  else .ok ()

/-- `Context.include_path_reset_defaults` (xkb.py lines 177-185). -/
def include_path_reset_defaults (r : Int) : Except XKBExc Unit :=
  if r ≠ 1 then .error (.pathError "Failed to restore default include path")
  else .ok ()

/-- Filesystem status of a path handed to `include_path_append`. -/
inductive PathStatus where
  | validDirectory
  | notADirectory
  | doesNotExist
  deriving DecidableEq, Repr

/-- Modelled from the spec: the external C call
`xkb_context_include_path_append` reports success as 1 and any failure
(path not a directory, path absent) as 0; the repository's tests
(`test_include_path_append_file`, `test_include_path_append_does_not_exist`)
exercise exactly these two failing statuses. -/
def xkb_context_include_path_append_c : PathStatus → Int
  | .validDirectory => 1
  | .notADirectory => 0
  | .doesNotExist => 0

/-- `include_path_append` applied to a path of the given status. -/
def include_path_append_on (s : PathStatus) : Except XKBExc Unit :=
  include_path_append (xkb_context_include_path_append_c s)

/-! ### Keysym functions (xkb.py lines 90-114) -/

/-- Modelled from the spec: the external C call `xkb_keysym_get_name`
follows the snprintf convention into a `size`-byte buffer — it returns -1
for an unknown keysym (modelled as `none`) and otherwise the full name
length in bytes excluding the terminating NUL, writing at most `size - 1`
name bytes plus the NUL. -/
def xkb_keysym_get_name_c (nm : Option (List Nat)) (size : Nat) :
    Int × List Nat :=
  match nm with
  | none => (-1, [])
  | some s => ((s.length : Int), if s.length + 1 ≤ size then s else s.take (size - 1))

/-- `keysym_get_name` (xkb.py lines 90-98): a 64-byte buffer; raises
`XKBInvalidKeysym` when the C call returns -1, raises `XKBBufferTooSmall`
when it returns more than 64 (`if r > len(name)` in the source), and
otherwise returns the buffer contents up to the NUL. -/
def keysym_get_name (nm : Option (List Nat)) : Except XKBExc (List Nat) :=
  let rb := xkb_keysym_get_name_c nm 64
  if rb.1 = -1 then .error .invalidKeysym
  else if rb.1 > 64 then .error .bufferTooSmall
  else .ok rb.2

/-- `XKB_KEY_NoSymbol`, the sentinel keysym value 0. -/
def XKB_KEY_NoSymbol : Nat := 0

/-- `XKB_KEYSYM_CASE_INSENSITIVE` flag bit. -/
def XKB_KEYSYM_CASE_INSENSITIVE : Nat := 1

/-- Python `str.encode('ascii')`: returns the bytes when every code point
is below 128, raises `UnicodeEncodeError` otherwise. -/
def encodeAscii (s : List Nat) : Except XKBExc (List Nat) :=
  if s.all (fun ch => ch < 128) then .ok s else .error .unicodeEncodeError

/-- `keysym_from_name` (xkb.py lines 100-105), embedded over the external
lookup `c` (the C call `xkb_keysym_from_name`, a total function from flag
bits and name bytes to a keysym, `XKB_KEY_NoSymbol` when unmatched): the
wrapper computes the flag word, ASCII-encodes the name — which raises for
non-ASCII input — and returns the C result unconditionally. -/
def keysym_from_name (c : Nat → List Nat → Nat) (name : List Nat)
    (case_insensitive : Bool) : Except XKBExc Nat :=
  let flags : Nat := if case_insensitive then 0 ||| XKB_KEYSYM_CASE_INSENSITIVE else 0
  match encodeAscii name with
  | .error e => .error e
  | .ok b => .ok (c flags b)

/-- A lookup table in which no name matches: every query returns the
sentinel `XKB_KEY_NoSymbol`. -/
def noSymbolLookup : Nat → List Nat → Nat := fun _ _ => XKB_KEY_NoSymbol

/-- `keysym_to_string` (xkb.py lines 107-114), embedded over the return
value `r` of the C call `xkb_keysym_to_utf8` (documented: -1 when the
64-byte buffer is too small, 0 when the keysym has no Unicode
representation, else bytes written) and the buffer contents `buf`:
raises `XKBBufferTooSmall` on -1, executes a bare `return` — Python
`None` — on 0, and otherwise returns the decoded buffer. -/
def keysym_to_string (r : Int) (buf : String) : Except XKBExc (Option String) :=
  if r = -1 then .error .bufferTooSmall
  else if r = 0 then .ok none
  else .ok (some buf)

/-! ### Keymap modifier and LED lookups (xkb.py lines 438-519) -/

/-- `XKB_MOD_INVALID`, the C library's invalid-index sentinel. -/
def XKB_MOD_INVALID : Nat := 2 ^ 32 - 1

/-- Modelled from the spec: the external C call `xkb_keymap_mod_get_name`
over a keymap whose modifiers are the named list `mods` — returns the name
at `idx`, or NULL (`none`) when `idx` is out of the declared range. -/
def xkb_keymap_mod_get_name_c (mods : List String) (idx : Nat) : Option String :=
  mods[idx]?

/-- `Keymap.mod_get_name` (xkb.py lines 438-447): raises
`XKBInvalidModifierIndex` when the C call returns NULL. -/
def mod_get_name (r : Option String) : Except XKBExc String :=
  match r with
  | none => .error .invalidModifierIndex
  | some s => .ok s

/-- `mod_get_name` composed with the C-side model. -/
def mod_get_name_full (mods : List String) (idx : Nat) : Except XKBExc String :=
  mod_get_name (xkb_keymap_mod_get_name_c mods idx)

/-- Lowest index of `name` in `mods`, `none` when absent. -/
def modIndexOf (mods : List String) (name : String) : Option Nat :=
  match mods with
  | [] => none
  | m :: rest => if m = name then some 0 else (modIndexOf rest name).map (· + 1)

/-- Modelled from the spec: the external C call `xkb_keymap_mod_get_index`
returns the lowest index of the named modifier, or `XKB_MOD_INVALID` when
no modifier has that name. -/
def xkb_keymap_mod_get_index_c (mods : List String) (name : String) : Nat :=
  (modIndexOf mods name).getD XKB_MOD_INVALID

/-- `Keymap.mod_get_index` (xkb.py lines 449-458): raises
`XKBModifierDoesNotExist(name)` when the C call returns
`XKB_MOD_INVALID`. -/
def mod_get_index (name : String) (r : Nat) : Except XKBExc Nat :=
  if r = XKB_MOD_INVALID then .error (.modifierDoesNotExist (some name))
  else .ok r

/-- `mod_get_index` composed with the C-side model. -/
def mod_get_index_full (mods : List String) (name : String) : Except XKBExc Nat :=
  mod_get_index name (xkb_keymap_mod_get_index_c mods name)

/-- Modelled from the spec: the external C call `xkb_keymap_led_get_name`
over a keymap whose LED table is `leds` (`leds[i] = none` means LED `i`
exists but has no name, which the spec and the `num_leds` docstring say
the declared range may contain).  The C library returns the name pointer,
which is NULL both when the index is outside the declared range and when
the LED at a valid index is unnamed. -/
def xkb_keymap_led_get_name_c (leds : List (Option String)) (idx : Nat) :
    Option String :=
  match leds[idx]? with
  | none => none
  | some n => n

/-- `Keymap.led_get_name` (xkb.py lines 500-508): raises
`XKBInvalidLEDIndex` whenever the C call returns NULL. -/
def led_get_name (r : Option String) : Except XKBExc String :=
  match r with
  | none => .error .invalidLEDIndex
  | some s => .ok s

/-- `led_get_name` composed with the C-side model. -/
def led_get_name_full (leds : List (Option String)) (idx : Nat) :
    Except XKBExc String :=
  led_get_name (xkb_keymap_led_get_name_c leds idx)

/-! ### Keymap keycode iteration (xkb.py lines 417-432) -/

/-- The data of a compiled keymap that keycode iteration depends on:
keycode bounds and which keycodes in between are actually assigned. -/
structure Keymap where
  min_keycode : Nat
  max_keycode : Nat
  assigned : Nat → Bool

/-- Modelled from the spec: the external C call `xkb_keymap_key_for_each`
visits every keycode from `min_keycode` to `max_keycode` in ascending
order and invokes the callback exactly on the assigned ones; the Python
callback `_key_for_each_helper` appends each visited keycode to a list,
so `Keymap._get_valid_keycodes` (xkb.py lines 417-426) produces the
assigned keycodes in visiting order. -/
def _get_valid_keycodes (km : Keymap) : List Nat :=
  (List.range' km.min_keycode (km.max_keycode + 1 - km.min_keycode)).filter km.assigned

/-- A `Keymap` Python object: the compiled keymap plus the
`_valid_keycodes` cache attribute, initialised to `None` in
`Keymap.__init__` (xkb.py line 379). -/
structure KeymapState where
  km : Keymap
  _valid_keycodes : Option (List Nat)

/-- `Keymap.__iter__` (xkb.py lines 428-432) as a state transformer:
on the first call the cache is `None`, so `_get_valid_keycodes` runs and
stores its result; later calls return the stored list unchanged. -/
def KeymapState.iterate (s : KeymapState) : List Nat × KeymapState :=
  match s._valid_keycodes with
  | some l => (l, s)
  | none =>
      let l := _get_valid_keycodes s.km
      (l, ⟨s.km, some l⟩)

/-! ### KeyboardState string and modifier queries (xkb.py lines 723-856) -/

/-- `KeyboardState.key_get_string` (xkb.py lines 723-737), embedded over
the full UTF-8 byte string `s` that the C call `xkb_state_key_get_utf8`
reports for the key (snprintf convention into the 64-byte buffer: the
return value `r` is `s.length`, the buffer receives at most 63 bytes plus
NUL): the wrapper raises `XKBBufferTooSmall` when `r + 1 > 64` and
otherwise returns the buffer contents. -/
def key_get_string (s : List Nat) : Except XKBExc (List Nat) :=
  let r := s.length
  let buffer := if r + 1 ≤ 64 then s else s.take 63
  if r + 1 > 64 then .error .bufferTooSmall
  else .ok buffer

/-- `KeyboardState.mod_name_is_active` (xkb.py lines 819-833), embedded
over the return value `r` of `xkb_state_mod_name_is_active`: raises
`XKBModifierDoesNotExist(name)` on -1, else returns `r == 1`. -/
def mod_name_is_active (name : String) (r : Int) : Except XKBExc Bool :=
  if r = -1 then .error (.modifierDoesNotExist (some name))
  else .ok (r == 1)

/-- `KeyboardState.mod_names_are_active` (xkb.py lines 835-856), embedded
over the name list and the return value `r` of
`xkb_state_mod_names_are_active`: raises `XKBModifierDoesNotExist(None)`
on -1 — the offending name is not identified — else returns `r == 1`. -/
def mod_names_are_active (names : List String) (r : Int) : Except XKBExc Bool :=
  if r = -1 then .error (.modifierDoesNotExist none)
  else .ok (r == 1)

/-! ### Claim theorems -/

/-- C1 counterexample: the two failure kinds are not distinct.  A path that
is not a directory and a path that does not exist produce the identical
exception value `XKBPathError("Failed to append to include path")`, so the
caller cannot distinguish them. -/
theorem include_path_append_failures_identical :
    include_path_append_on PathStatus.notADirectory =
      include_path_append_on PathStatus.doesNotExist ∧
    include_path_append_on PathStatus.notADirectory =
      Except.error (XKBExc.pathError "Failed to append to include path") :=
  ⟨rfl, rfl⟩

/-- C1 (amended): every failing append is surfaced to the caller as an
`XKBPathError`, but it is a single fixed exception value — the wrapper
receives only the C return code, so "not a directory" and "does not
exist" failures are not distinguishable. -/
theorem include_path_append_surfaces_single_path_error (r : Int) (h : r ≠ 1) :
    include_path_append r =
      Except.error (XKBExc.pathError "Failed to append to include path") := by
  simp [include_path_append, h]

/-- Witness for C1 at the concrete failing return code 0. -/
theorem include_path_append_surfaces_single_path_error_witness :
    include_path_append 0 =
      Except.error (XKBExc.pathError "Failed to append to include path") :=
  include_path_append_surfaces_single_path_error 0 (by decide)

/-- C2 counterexample: for a keysym with no Unicode representation (the C
call returns 0), `keysym_to_string` returns Python `None` — an absent
value — not the empty string. -/
theorem keysym_to_string_returns_none_not_empty :
    keysym_to_string 0 "" = Except.ok none ∧
      (Except.ok none : Except XKBExc (Option String)) ≠ Except.ok (some "") :=
  ⟨rfl, by simp⟩

/-- C2 (amended): for every keysym with no textual representation,
`keysym_to_string` deterministically returns `None` (an absent value),
not an error and not the empty string. -/
theorem keysym_to_string_no_representation_returns_none (buf : String) :
    keysym_to_string 0 buf = Except.ok none ∧
      (Except.ok (none : Option String) : Except XKBExc (Option String)) ≠
        Except.error XKBExc.bufferTooSmall :=
  ⟨rfl, by simp⟩

/-- C3: at the boundary where the name needs exactly the 64 bytes of the
buffer (64 name bytes, leaving no room for the NUL), `keysym_get_name`
does not raise `XKBBufferTooSmall`: the `r > len(name)` check misses
`r = 64`, and the silently truncated 63-byte name is returned. -/
theorem keysym_get_name_boundary_silent_truncation :
    keysym_get_name (some (List.replicate 64 97)) =
      Except.ok (List.replicate 63 97) :=
  rfl

/-- C4 counterexample: a keymap with one LED that exists but is unnamed.
`led_get_name` on the valid index 0 does not succeed — it raises
`XKBInvalidLEDIndex`, the very same exception produced for the
out-of-range index 1. -/
theorem led_get_name_unnamed_raises_like_invalid :
    led_get_name_full [none] 0 = Except.error XKBExc.invalidLEDIndex ∧
    led_get_name_full [none] 0 = led_get_name_full [none] 1 :=
  ⟨rfl, rfl⟩

/-- C4 (amended): for an LED index inside the declared range whose LED has
no name, `led_get_name` raises `XKBInvalidLEDIndex` — the same exception
as for an index outside the declared range; an unnamed-but-existing LED
is not given a distinct outcome. -/
theorem led_get_name_unnamed_and_out_of_range_conflated
    (leds : List (Option String)) (idx1 idx2 : Nat)
    (h1 : leds[idx1]? = some none) (h2 : leds.length ≤ idx2) :
    led_get_name_full leds idx1 = Except.error XKBExc.invalidLEDIndex ∧
    led_get_name_full leds idx2 = Except.error XKBExc.invalidLEDIndex := by
  have h2' : leds[idx2]? = none := List.getElem?_eq_none h2
  constructor
  · simp [led_get_name_full, xkb_keymap_led_get_name_c, led_get_name, h1]
  · simp [led_get_name_full, xkb_keymap_led_get_name_c, led_get_name, h2']

/-- Witness for C4: one unnamed LED, valid index 0 and invalid index 2. -/
theorem led_get_name_unnamed_and_out_of_range_conflated_witness :
    led_get_name_full [none] 0 = Except.error XKBExc.invalidLEDIndex ∧
    led_get_name_full [none] 2 = Except.error XKBExc.invalidLEDIndex :=
  led_get_name_unnamed_and_out_of_range_conflated [none] 0 2 rfl (by decide)

/-- Helper: a name absent from the modifier list has no index. -/
theorem modIndexOf_eq_none_of_not_mem {mods : List String} {name : String}
    (h : name ∉ mods) : modIndexOf mods name = none := by
  induction mods with
  | nil => rfl
  | cons m rest ih =>
      simp only [List.mem_cons, not_or] at h
      simp [modIndexOf, Ne.symm h.1, ih h.2]

/-- C5: an out-of-range modifier index makes `mod_get_name` raise
`XKBInvalidModifierIndex`, while an unmatched name makes `mod_get_index`
raise `XKBModifierDoesNotExist` carrying that name; the two exception
values and their classes are distinct, so the caller can distinguish
the two failure kinds. -/
theorem mod_lookup_miss_kinds_distinct (mods : List String) (idx : Nat)
    (name : String) (h1 : mods.length ≤ idx) (h2 : name ∉ mods) :
    mod_get_name_full mods idx = Except.error XKBExc.invalidModifierIndex ∧
    mod_get_index_full mods name =
      Except.error (XKBExc.modifierDoesNotExist (some name)) ∧
    XKBExc.invalidModifierIndex ≠ XKBExc.modifierDoesNotExist (some name) ∧
    XKBExc.cls XKBExc.invalidModifierIndex ≠
      XKBExc.cls (XKBExc.modifierDoesNotExist (some name)) := by
  have hg : mods[idx]? = none := List.getElem?_eq_none h1
  refine ⟨?_, ?_, ?_, ?_⟩
  · simp [mod_get_name_full, xkb_keymap_mod_get_name_c, mod_get_name, hg]
  · simp [mod_get_index_full, xkb_keymap_mod_get_index_c, mod_get_index,
      modIndexOf_eq_none_of_not_mem h2]
  · exact fun hq => XKBExc.noConfusion hq
  · exact fun hq => ExcClass.noConfusion hq

/-- Witness for C5: keymap modifiers `["Shift"]`, invalid index 1,
unmatched name "wibble". -/
theorem mod_lookup_miss_kinds_distinct_witness :
    mod_get_name_full ["Shift"] 1 = Except.error XKBExc.invalidModifierIndex ∧
    mod_get_index_full ["Shift"] "wibble" =
      Except.error (XKBExc.modifierDoesNotExist (some "wibble")) ∧
    XKBExc.invalidModifierIndex ≠ XKBExc.modifierDoesNotExist (some "wibble") ∧
    XKBExc.cls XKBExc.invalidModifierIndex ≠
      XKBExc.cls (XKBExc.modifierDoesNotExist (some "wibble")) :=
  mod_lookup_miss_kinds_distinct ["Shift"] 1 "wibble" (by decide) (by decide)

/-- C6 counterexample: `keysym_from_name` raises `UnicodeEncodeError` for
the non-ASCII name consisting of the single code point 233 ("é"), because
the wrapper first runs `name.encode('ascii')`; it does not return the
sentinel value. -/
theorem keysym_from_name_raises_on_non_ascii :
    keysym_from_name noSymbolLookup [233] false =
      Except.error XKBExc.unicodeEncodeError :=
  rfl

/-- C6 (amended): for every ASCII name string, `keysym_from_name` returns
a keysym value and never raises — in particular the sentinel
`XKB_KEY_NoSymbol` when no keysym matches; a non-ASCII name instead
raises `UnicodeEncodeError` from the encoding step. -/
theorem keysym_from_name_ascii_never_raises (c : Nat → List Nat → Nat)
    (name : List Nat) (ci : Bool) (h : ∀ ch ∈ name, ch < 128) :
    (∃ k, keysym_from_name c name ci = Except.ok k) ∧
      keysym_from_name noSymbolLookup name ci = Except.ok XKB_KEY_NoSymbol := by
  have henc : encodeAscii name = Except.ok name := by
    unfold encodeAscii
    rw [if_pos]
    rw [List.all_eq_true]
    intro ch hm
    simpa using h ch hm
  have hrun : ∀ f : Nat → List Nat → Nat, keysym_from_name f name ci =
      Except.ok (f (if ci then 0 ||| XKB_KEYSYM_CASE_INSENSITIVE else 0) name) := by
    intro f
    simp [keysym_from_name, henc]
  exact ⟨⟨_, hrun c⟩, (hrun noSymbolLookup).trans rfl⟩

/-- Witness for C6 at the ASCII name `[97]` ("a"). -/
theorem keysym_from_name_ascii_never_raises_witness :
    (∃ k, keysym_from_name noSymbolLookup [97] false = Except.ok k) ∧
      keysym_from_name noSymbolLookup [97] false =
        Except.ok XKB_KEY_NoSymbol :=
  keysym_from_name_ascii_never_raises noSymbolLookup [97] false (by decide)

/-- C7: iterating a fresh `Keymap` object yields exactly the assigned
keycodes of the declared range in strictly ascending order, and a second
iteration of the same object yields exactly the same sequence (the list
is computed once and cached). -/
theorem keymap_iteration_ascending_stable (km : Keymap) :
    ((⟨km, none⟩ : KeymapState).iterate.2.iterate.1 =
        (⟨km, none⟩ : KeymapState).iterate.1) ∧
    List.Sorted (· < ·) ((⟨km, none⟩ : KeymapState).iterate.1) ∧
    ∀ k, k ∈ (⟨km, none⟩ : KeymapState).iterate.1 ↔
      km.min_keycode ≤ k ∧ k ≤ km.max_keycode ∧ km.assigned k = true := by
  refine ⟨rfl, ?_, ?_⟩
  · exact List.Pairwise.sublist (List.filter_sublist _)
      (List.pairwise_lt_range' _ _)
  · intro k
    show k ∈ _get_valid_keycodes km ↔ _
    simp only [_get_valid_keycodes, List.mem_filter, List.mem_range'_1]
    constructor
    · rintro ⟨⟨hk1, hk2⟩, hk3⟩
      exact ⟨hk1, by omega, hk3⟩
    · rintro ⟨hk1, hk2, hk3⟩
      exact ⟨⟨hk1, by omega⟩, hk3⟩

/-- C8: `key_get_string` returns the empty string (`.ok []`, not an
error) when the key produces no text, and for every produced string it
either returns it complete or raises `XKBBufferTooSmall` — it never
returns a truncated string. -/
theorem key_get_string_empty_ok_never_truncates :
    key_get_string [] = Except.ok [] ∧
    ∀ s : List Nat, key_get_string s = Except.ok s ∨
      key_get_string s = Except.error XKBExc.bufferTooSmall := by
  refine ⟨rfl, ?_⟩
  intro s
  by_cases h : s.length + 1 ≤ 64
  · have h' : ¬s.length + 1 > 64 := by omega
    left
    simp [key_get_string, h, h']
  · have h' : s.length + 1 > 64 := by omega
    right
    simp [key_get_string, h']

/-- C9: `XKBPathError` derives directly from `Exception` and is not a
subclass of `XKBError`, so `except XKBError` does not catch it — while
every other exception class the module defines is caught; and the three
include-path methods raise exactly exceptions of class `XKBPathError`. -/
theorem xkb_path_error_outside_xkb_error_hierarchy :
    parentClass ExcClass.xkbPathError = some ExcClass.exc ∧
    isSubclassOf ExcClass.xkbPathError ExcClass.xkbError = false ∧
    catches ExcClass.xkbError ExcClass.xkbPathError = false ∧
    ([ExcClass.xkbBufferTooSmall, ExcClass.xkbInvalidKeysym,
      ExcClass.xkbKeymapCreationFailure, ExcClass.xkbKeymapReadError,
      ExcClass.xkbInvalidModifierIndex, ExcClass.xkbModifierDoesNotExist,
      ExcClass.xkbInvalidLayoutIndex, ExcClass.xkbLayoutDoesNotExist,
      ExcClass.xkbInvalidLEDIndex, ExcClass.xkbLEDDoesNotExist].all
        (fun c => catches ExcClass.xkbError c)) = true ∧
    include_path_append 0 =
      Except.error (XKBExc.pathError "Failed to append to include path") ∧
    include_path_append_default 0 =
      Except.error (XKBExc.pathError "Failed to append default include paths") ∧
    include_path_reset_defaults 0 =
      Except.error (XKBExc.pathError "Failed to restore default include path") ∧
    (XKBExc.pathError "Failed to append to include path").cls =
      ExcClass.xkbPathError :=
  ⟨rfl, by decide, by decide, by decide, rfl, rfl, rfl, rfl⟩

/-- C10: on lookup failure (C return -1), `mod_name_is_active` raises
`XKBModifierDoesNotExist` whose `modifier_name` is the offending name,
whereas `mod_names_are_active` raises `XKBModifierDoesNotExist` whose
`modifier_name` is `None`, and the two payloads differ. -/
theorem modifier_does_not_exist_payload_distinction (name : String)
    (names : List String) (r : Int) (h : r = -1) :
    mod_name_is_active name r =
      Except.error (XKBExc.modifierDoesNotExist (some name)) ∧
    mod_names_are_active names r =
      Except.error (XKBExc.modifierDoesNotExist none) ∧
    (some name : Option String) ≠ none := by
  subst h
  exact ⟨rfl, rfl, by simp⟩

/-- Witness for C10 with name "Shift" and name list `["Shift", "wibble"]`. -/
theorem modifier_does_not_exist_payload_distinction_witness :
    mod_name_is_active "Shift" (-1) =
      Except.error (XKBExc.modifierDoesNotExist (some "Shift")) ∧
    mod_names_are_active ["Shift", "wibble"] (-1) =
      Except.error (XKBExc.modifierDoesNotExist none) ∧
    (some "Shift" : Option String) ≠ none :=
  modifier_does_not_exist_payload_distinction "Shift" ["Shift", "wibble"]
    (-1) rfl
